import Mathlib

/-!
Shallow embedding of the pyshop_intern_task user-authentication service:
users/views.py, users/models.py and users/authentication.py.

Conventions of the embedding:
- timestamps are integer seconds since the epoch (Nat), durations are in
  integer seconds (Nat);
- a signed JWT is modelled symbolically as its payload tagged with the key
  it was signed with; signature verification is equality of that key with
  the key held by the verifier (HMAC-SHA256 is a MAC, so a verifier holding
  the secret accepts exactly the tokens produced with the same secret);
- the database is explicit state (a list of user records and a list of
  RefreshTokenModel rows) threaded through the request handlers;
- each request handler takes the wall-clock reading(s) and any dynamic
  configuration values it reads as arguments, since in the source those are
  ambient effects read fresh on every request.
-/

namespace PyShop

/-- The claims the views place into every token they mint:
views.py always passes the dict with keys user_id and email. -/
structure Claims where
  user_id : Nat
  email : String
deriving DecidableEq, Repr

/-- Full JWT payload as built by create_token (views.py lines 40-44):
the claims together with the registered exp and iat fields. -/
structure Payload where
  claims : Claims
  exp : Nat
  iat : Nat
deriving DecidableEq, Repr

/-- A signed token, modelled symbolically: payload plus the signing key. -/
structure Token where
  payload : Payload
  key : String
deriving DecidableEq, Repr

/-- Process-wide signing secret.  views.py line 24 reads it from the
environment; authentication.py line 9 reads the same value from settings. -/
def SECRET_KEY : String := "process-secret"

/-- views.py line 25: ACCESS_TOKEN_EXPIRATION = timedelta(minutes=15),
a module-level constant, expressed in seconds. -/
def ACCESS_TOKEN_EXPIRATION : Nat := 15 * 60

/-- views.py line 26: REFRESH_TOKEN_EXPIRATION = timedelta(days=7),
a module-level constant, expressed in seconds (never used by the views). -/
def REFRESH_TOKEN_EXPIRATION : Nat := 7 * 86400

/-- Errors raised by the PyJWT decode call: jwt.ExpiredSignatureError and
jwt.InvalidTokenError (the latter also covers malformed input). -/
inductive TokenError where
  | ExpiredSignature
  | InvalidToken
deriving DecidableEq, Repr

/-- Modelled from the spec: jwt.encode(payload, key, algorithm="HS256") is
the PyJWT library, which is not part of src/; per spec section 4.1 the codec
serializes the payload and signs it with the process-wide secret.
Symbolically the token is the payload tagged with the signing key. -/
def jwtEncode (payload : Payload) (key : String) : Token :=
  { payload := payload, key := key }

/-- Modelled from the spec: jwt.decode(token, key, algorithms=["HS256"]) is
the PyJWT library, which is not part of src/; per spec section 4.1
verification fails with the expired-token error when now >= expires_at
(inclusive boundary over integer seconds since the epoch), fails with the
invalid-token error when the signature does not verify, and otherwise
returns the payload. -/
def jwtDecode (token : Token) (key : String) (now : Nat) :
    Except TokenError Payload :=
  if token.key ≠ key then .error .InvalidToken
  else if token.payload.exp ≤ now then .error .ExpiredSignature
  else .ok token.payload

/-- views.py lines 29-45, create_token.  The source reads timezone.now()
twice while building the payload, first for exp and then for iat; the two
readings are passed in as nowExp and nowIat. -/
def create_token (data : Claims) (expiration : Nat)
    (nowExp nowIat : Nat) : Token :=
  jwtEncode { claims := data, exp := nowExp + expiration, iat := nowIat }
    SECRET_KEY

/-- views.py lines 48-63, decode_token: decode with the process secret,
collapsing both the expired and the invalid case to None. -/
def decode_token (token : Token) (now : Nat) : Option Payload :=
  match jwtDecode token SECRET_KEY now with
  | .ok payload => some payload
  | .error _ => none

/-- models.py CustomUser, restricted to the fields the core reads:
id, unique email, password digest. -/
structure UserRec where
  id : Nat
  email : String
  passwordDigest : String
deriving DecidableEq, Repr

/-- Trusted hashing capability of spec section 1: hash(password) -> digest,
modelled as an injective tagging of the password. -/
def hashPassword (password : String) : String := "digest:" ++ password

/-- Django user.check_password: verify(password, digest) -> bool,
the trusted capability of spec section 1. -/
def check_password (user : UserRec) (password : String) : Bool :=
  user.passwordDigest == hashPassword password

/-- models.py lines 6-14, RefreshTokenModel: user foreign key, unique token
column, created_at (auto_now_add) and expires_at. -/
structure RefreshRow where
  userId : Nat
  token : Token
  created_at : Nat
  expires_at : Nat
deriving DecidableEq, Repr

/-- The persistent state: user table, RefreshTokenModel table, and the
auto-increment counter for user primary keys. -/
structure DB where
  users : List UserRec
  rows : List RefreshRow
  nextId : Nat
deriving DecidableEq, Repr

/-- The two dynamic constance settings read by the login view
(views.py lines 183-184 and 208-210): ACCESS_TOKEN_LIFETIME is in seconds,
REFRESH_TOKEN_LIFETIME is in days. -/
structure Config where
  ACCESS_TOKEN_LIFETIME : Nat
  REFRESH_TOKEN_LIFETIME : Nat
deriving DecidableEq, Repr

/-- User.objects.get(email=email), returning none instead of raising
User.DoesNotExist (email is a unique column). -/
def findUserByEmail (users : List UserRec) (email : String) : Option UserRec :=
  users.find? (fun u => u.email == email)

/-- User.objects.get(id=uid), returning none instead of raising
User.DoesNotExist. -/
def findUserById (users : List UserRec) (uid : Nat) : Option UserRec :=
  users.find? (fun u => u.id == uid)

/-- Response bodies produced by the five views. -/
inductive Body where
  | tokensOut (access refresh : Token)
  | accessOut (access : Token)
  | detail (s : String)
  | success (s : String)
  | userOut (id : Nat) (email : String)
  | validationErrors
deriving DecidableEq, Repr

/-- An HTTP response: numeric status code plus body. -/
structure HttpResponse where
  status : Nat
  body : Body
deriving DecidableEq, Repr

/-- views.py RegisterView.post (lines 88-111).  Serializer validity is
djoser/framework boilerplate, an external collaborator per spec section 1;
the one validation rule the core data model itself imposes is email
uniqueness (models.py line 36), so the embedding treats the serializer as
valid exactly when the email is not yet taken.  On success the user is
stored with the hashed password and a fresh auto-increment id; no token is
issued. -/
def registerView (db : DB) (email password : String) : HttpResponse × DB :=
  if db.users.any (fun u => u.email == email) then
    ({ status := 400, body := .validationErrors }, db)
  else
    let user : UserRec :=
      { id := db.nextId, email := email,
        passwordDigest := hashPassword password }
    ({ status := 201, body := .userOut user.id user.email },
     { db with users := db.users ++ [user], nextId := db.nextId + 1 })

/-- Row updater applied by update_or_create when a row for the user already
exists: replace token and expires_at in the defaults, keep everything else
(in particular created_at and the user key). -/
def upsertRow (uid : Nat) (tok : Token) (expires : Nat)
    (r : RefreshRow) : RefreshRow :=
  if r.userId == uid then { r with token := tok, expires_at := expires }
  else r

/-- views.py lines 200-214, CustomTokenObtainPairView.save_refresh_token:
expires_at := now + days(config.REFRESH_TOKEN_LIFETIME), then
RefreshTokenModel.objects.update_or_create(user=user, defaults=...) —
update the existing row for the user in place, or create a fresh row. -/
def save_refresh_token (db : DB) (user : UserRec) (refresh_token : Token)
    (cfg : Config) (now : Nat) : DB :=
  let expires_at := now + 86400 * cfg.REFRESH_TOKEN_LIFETIME
  if db.rows.any (fun r => r.userId == user.id) then
    { db with rows := db.rows.map (upsertRow user.id refresh_token expires_at) }
  else
    { db with rows := db.rows ++
        [{ userId := user.id, token := refresh_token,
           created_at := now, expires_at := expires_at }] }

/-- views.py CustomTokenObtainPairView.post (lines 157-198): look the user
up by email (404 if absent), check the password (401 on mismatch), then
mint access and refresh tokens with the lifetimes read from the dynamic
constance config at request time and persist the refresh token. -/
def loginView (cfg : Config) (db : DB) (email password : String)
    (now : Nat) : HttpResponse × DB :=
  match findUserByEmail db.users email with
  | none => ({ status := 404, body := .detail "User does not exist" }, db)
  | some user =>
    if !(check_password user password) then
      ({ status := 401, body := .detail "Invalid credentials" }, db)
    else
      let access_token := create_token
        { user_id := user.id, email := user.email }
        cfg.ACCESS_TOKEN_LIFETIME now now
      let refresh_token := create_token
        { user_id := user.id, email := user.email }
        (86400 * cfg.REFRESH_TOKEN_LIFETIME) now now
      ({ status := 200, body := .tokensOut access_token refresh_token },
       save_refresh_token db user refresh_token cfg now)

/-- Value of request.data.get("refresh") as the views test it with
`if not refresh_token`: absent, present but falsy (empty string), or an
actual token string. -/
inductive RefreshField where
  | missing
  | empty
  | tok (t : Token)
deriving DecidableEq, Repr

/-- views.py TokenRefreshView.post (lines 330-375).  Missing or empty
refresh field gives 400; a token that fails decode_token gives 401; then
the user is re-read from the user_id claim (404 if deleted) and a new
access token is minted with the module constant ACCESS_TOKEN_EXPIRATION.
The view never queries RefreshTokenModel: the handler for
RefreshTokenModel.DoesNotExist at lines 366-370 is unreachable because no
statement in its try block touches that model. -/
def refreshView (db : DB) (refresh : RefreshField) (now : Nat) :
    HttpResponse × DB :=
  match refresh with
  | .missing =>
    ({ status := 400, body := .detail "Refresh token is required" }, db)
  | .empty =>
    ({ status := 400, body := .detail "Refresh token is required" }, db)
  | .tok t =>
    match decode_token t now with
    | none =>
      ({ status := 401, body := .detail "Invalid or expired refresh token" },
       db)
    | some decoded =>
      match findUserById db.users decoded.claims.user_id with
      | none => ({ status := 404, body := .detail "User not found" }, db)
      | some user =>
        ({ status := 200,
           body := .accessOut (create_token
             { user_id := user.id, email := user.email }
             ACCESS_TOKEN_EXPIRATION now now) }, db)

/-- views.py LogoutView.post (lines 401-429): missing or empty refresh
field gives 400; otherwise RefreshTokenModel.objects.get(token=...) is
deleted on a hit (200), and RefreshTokenModel.DoesNotExist maps to
400 with detail "Invalid refresh token". -/
def logoutView (db : DB) (refresh : RefreshField) : HttpResponse × DB :=
  match refresh with
  | .missing =>
    ({ status := 400, body := .detail "Refresh token is required" }, db)
  | .empty =>
    ({ status := 400, body := .detail "Refresh token is required" }, db)
  | .tok t =>
    if db.rows.any (fun r => r.token == t) then
      ({ status := 200, body := .success "User logged out." },
       { db with rows := db.rows.filter (fun r => r.token != t) })
    else
      ({ status := 400, body := .detail "Invalid refresh token" }, db)

/-- One sequential API operation against the token lifecycle engine, with
the ambient inputs (clock reading, dynamic config) it consumes. -/
inductive Op where
  | register (email password : String)
  | login (cfg : Config) (email password : String) (now : Nat)
  | refresh (f : RefreshField) (now : Nat)
  | logout (f : RefreshField)

/-- State transition of one operation: run the handler, keep the state. -/
def step (db : DB) : Op → DB
  | .register email password => (registerView db email password).2
  | .login cfg email password now => (loginView cfg db email password now).2
  | .refresh f now => (refreshView db f now).2
  | .logout f => (logoutView db f).2

/-- The empty initial state. -/
def initDB : DB := { users := [], rows := [], nextId := 1 }

/-- Run a sequence of operations from the empty initial state. -/
def runOps (ops : List Op) : DB := ops.foldl step initDB

/-- The RefreshTokenStore invariant: the user ids of the stored rows are
pairwise distinct, i.e. at most one row per user. -/
def atMostOneRowPerUser (db : DB) : Prop :=
  db.rows.Pairwise (fun a b => a.userId ≠ b.userId)

/-- A Python string at the wire level, as a list of characters. -/
abbrev PyStr := List Char

/-- Python str.split(sep) for a one-character separator: split at every
occurrence, keeping empty segments. -/
def splitOnChar (c : Char) : PyStr → List PyStr
  | [] => [[]]
  | x :: xs =>
    match splitOnChar c xs with
    | [] => [[x]]
    | w :: ws => if x == c then [] :: w :: ws else (x :: w) :: ws

/-- Outcome of the per-request authentication hook: defer to other
authenticators (return None), raise AuthenticationFailed with a message, or
authenticate the request as (user, token). -/
inductive AuthOutcome where
  | deferred
  | failed (msg : String)
  | ok (user : UserRec) (token : PyStr)
deriving DecidableEq, Repr

/-- Modelled from the spec: the wire format of a token string (base64
segments plus signature) lives inside PyJWT, which is not part of src/.
The parse from a wire string back to the signed token it carries is kept
abstract; none means the string is not a well-formed signed token. -/
abbrev ParseToken := PyStr → Option Token

/-- PyJWT jwt.decode applied to a wire string: a string that does not parse
as a signed token raises the invalid-token error; a parsed token is then
checked exactly as in jwtDecode. -/
def jwtDecodeStr (parse : ParseToken) (s : PyStr) (key : String)
    (now : Nat) : Except TokenError Payload :=
  match parse s with
  | none => .error .InvalidToken
  | some t => jwtDecode t key now

/-- authentication.py JWTAuthentication.authenticate (lines 13-27): return
None when the Authorization header is absent, falsy (empty), or does not
start with "Bearer "; otherwise take the second space-separated segment as
the token, decode it, load the user by the user_id claim, and map the three
exceptions to their distinct AuthenticationFailed messages. -/
def authenticate (parse : ParseToken) (db : DB) (auth_header : Option PyStr)
    (now : Nat) : AuthOutcome :=
  match auth_header with
  | none => .deferred
  | some h =>
    if h.isEmpty || !("Bearer ".toList.isPrefixOf h) then .deferred
    else
      let token := (splitOnChar ' ' h).getD 1 []
      match jwtDecodeStr parse token SECRET_KEY now with
      | .error .ExpiredSignature => .failed "Access token has expired"
      | .error .InvalidToken => .failed "Invalid token"
      | .ok payload =>
        match findUserById db.users payload.claims.user_id with
        | none => .failed "User not found"
        | some user => .ok user token

/-! Concrete sample data used by the witness theorems. -/

/-- A registered sample user. -/
def alice : UserRec :=
  { id := 1, email := "a@x.com", passwordDigest := hashPassword "pw1" }

/-- A refresh token for the sample user: 900 second lifetime, minted at
second 1000. -/
def tokSample : Token :=
  create_token { user_id := 1, email := "a@x.com" } 900 1000 1000

/-- A stored RefreshTokenModel row holding the sample token. -/
def rowSample : RefreshRow :=
  { userId := 1, token := tokSample, created_at := 1000, expires_at := 1900 }

/-- Database holding the sample user and no refresh rows. -/
def dbAlice : DB := { users := [alice], rows := [], nextId := 2 }

/-- Database holding the sample user and the sample refresh row. -/
def dbRow : DB := { users := [alice], rows := [rowSample], nextId := 2 }

/-! Helper lemmas about the handlers. -/

/-- The update_or_create row updater never changes the user key column. -/
theorem upsertRow_userId (uid : Nat) (tok : Token) (expires : Nat)
    (r : RefreshRow) : (upsertRow uid tok expires r).userId = r.userId := by
  unfold upsertRow; split <;> rfl

/-- save_refresh_token only touches the RefreshTokenModel table. -/
theorem save_refresh_token_users (db : DB) (user : UserRec) (tok : Token)
    (cfg : Config) (now : Nat) :
    (save_refresh_token db user tok cfg now).users = db.users := by
  simp only [save_refresh_token]
  split <;> rfl

/-- The login view never changes the user table. -/
theorem loginView_users (cfg : Config) (db : DB) (email password : String)
    (now : Nat) :
    (loginView cfg db email password now).2.users = db.users := by
  rcases hf : findUserByEmail db.users email with _ | u
  · simp [loginView, hf]
  · rcases hp : check_password u password with _ | _
    · simp [loginView, hf, hp]
    · simp [loginView, hf, hp, save_refresh_token_users]

/-- Successful login: response and resulting state, spelled out. -/
theorem loginView_success (cfg : Config) (db : DB) (email password : String)
    (now : Nat) (u : UserRec)
    (hf : findUserByEmail db.users email = some u)
    (hp : check_password u password = true) :
    loginView cfg db email password now =
      ({ status := 200,
         body := .tokensOut
           (create_token { user_id := u.id, email := u.email }
             cfg.ACCESS_TOKEN_LIFETIME now now)
           (create_token { user_id := u.id, email := u.email }
             (86400 * cfg.REFRESH_TOKEN_LIFETIME) now now) },
       save_refresh_token db u
         (create_token { user_id := u.id, email := u.email }
           (86400 * cfg.REFRESH_TOKEN_LIFETIME) now now) cfg now) := by
  simp [loginView, hf, hp]

/-! Claim theorems. -/

/-- C5: Login with an unknown email fails with 404 and body detail
"User does not exist"; Login with a known email but a wrong password fails
with 401 and body detail "Invalid credentials"; in both failure cases no
tokens are issued (the body is only the detail message) and the database,
in particular the RefreshTokenStore, is returned unchanged. -/
theorem login_error_paths (cfg : Config) (db : DB) (email password : String)
    (now : Nat) :
    (findUserByEmail db.users email = none →
      loginView cfg db email password now =
        ({ status := 404, body := .detail "User does not exist" }, db)) ∧
    (∀ u, findUserByEmail db.users email = some u →
      check_password u password = false →
      loginView cfg db email password now =
        ({ status := 401, body := .detail "Invalid credentials" }, db)) := by
  constructor
  · intro hf
    simp [loginView, hf]
  · intro u hf hp
    simp [loginView, hf, hp]

/-- Witness for C5 at concrete inputs: unknown email on the empty database
gives 404, wrong password for the sample user gives 401, both leaving the
database untouched. -/
theorem login_error_paths_witness :
    loginView ⟨900, 7⟩ initDB "a@x.com" "pw1" 0 =
      ({ status := 404, body := .detail "User does not exist" }, initDB) ∧
    loginView ⟨900, 7⟩ dbAlice "a@x.com" "wrong" 0 =
      ({ status := 401, body := .detail "Invalid credentials" }, dbAlice) :=
  ⟨(login_error_paths ⟨900, 7⟩ initDB "a@x.com" "pw1" 0).1 (by decide),
   (login_error_paths ⟨900, 7⟩ dbAlice "a@x.com" "wrong" 0).2 alice
     (by decide) (by decide)⟩

/-- C6: Logout with a token stored in the RefreshTokenStore deletes exactly
the rows carrying that token (the token column is unique, so the one row)
and keeps every other row, reporting 200 success; an immediate second
Logout with the same token fails with 400 detail "Invalid refresh token";
Logout with a token not in the store fails the same way and leaves the
database unchanged. -/
theorem logout_semantics (db : DB) (t : Token) :
    (db.rows.any (fun r => r.token == t) = true →
      (logoutView db (.tok t)).1 =
        { status := 200, body := .success "User logged out." } ∧
      (logoutView db (.tok t)).2.rows =
        db.rows.filter (fun r => r.token != t) ∧
      (∀ r, r ∈ (logoutView db (.tok t)).2.rows ↔
        r ∈ db.rows ∧ ¬ r.token = t) ∧
      (logoutView (logoutView db (.tok t)).2 (.tok t)).1 =
        { status := 400, body := .detail "Invalid refresh token" }) ∧
    (db.rows.any (fun r => r.token == t) = false →
      logoutView db (.tok t) =
        ({ status := 400, body := .detail "Invalid refresh token" }, db)) := by
  constructor
  · intro hany
    have hfilter :
        ((db.rows.filter (fun r => r.token != t)).any
          (fun r => r.token == t)) = false := by
      simp only [List.any_eq_false]
      intro r hr
      have h2 := (List.mem_filter.mp hr).2
      simpa using h2
    refine ⟨by simp [logoutView, hany], by simp [logoutView, hany], ?_, ?_⟩
    · intro r
      simp [logoutView, hany, List.mem_filter]
    · simp [logoutView, hany, hfilter]
  · intro hany
    simp [logoutView, hany]

/-- Witness for C6 at a concrete input: the sample row is logged out with
success, and repeating the same logout immediately fails. -/
theorem logout_semantics_witness :
    (logoutView dbRow (.tok tokSample)).1 =
      { status := 200, body := .success "User logged out." } ∧
    (logoutView (logoutView dbRow (.tok tokSample)).2 (.tok tokSample)).1 =
      { status := 400, body := .detail "Invalid refresh token" } ∧
    logoutView dbAlice (.tok tokSample) =
      ({ status := 400, body := .detail "Invalid refresh token" }, dbAlice) :=
  ⟨((logout_semantics dbRow tokSample).1 (by decide)).1,
   ((logout_semantics dbRow tokSample).1 (by decide)).2.2.2,
   (logout_semantics dbAlice tokSample).2 (by decide)⟩

/-- C8: complete case analysis of the refresh endpoint: missing or empty
refresh field gives 400 detail "Refresh token is required"; a token failing
signature verification or past expiry gives 401 detail "Invalid or expired
refresh token"; a decoding token whose user_id matches no user gives 404
detail "User not found"; and in the only remaining case the endpoint
succeeds with 200, so those three are the only failure outcomes. -/
theorem refresh_error_taxonomy (db : DB) (f : RefreshField)
    (now : Nat) :
    ((f = .missing ∨ f = .empty) →
      (refreshView db f now).1 =
        { status := 400, body := .detail "Refresh token is required" }) ∧
    (∀ t, f = .tok t → decode_token t now = none →
      (refreshView db f now).1 =
        { status := 401,
          body := .detail "Invalid or expired refresh token" }) ∧
    (∀ t decoded, f = .tok t → decode_token t now = some decoded →
      findUserById db.users decoded.claims.user_id = none →
      (refreshView db f now).1 =
        { status := 404, body := .detail "User not found" }) ∧
    (∀ t decoded user, f = .tok t → decode_token t now = some decoded →
      findUserById db.users decoded.claims.user_id = some user →
      (refreshView db f now).1 =
        { status := 200,
          body := .accessOut (create_token
            { user_id := user.id, email := user.email }
            ACCESS_TOKEN_EXPIRATION now now) }) := by
  refine ⟨?_, ?_, ?_, ?_⟩
  · rintro (rfl | rfl) <;> rfl
  · rintro t rfl hdec
    simp [refreshView, hdec]
  · rintro t decoded rfl hdec hfind
    simp [refreshView, hdec, hfind]
  · rintro t decoded user rfl hdec hfind
    simp [refreshView, hdec, hfind]

/-- Witness for C8 at concrete inputs: one instance of each of the three
failure outcomes and of the success case. -/
theorem refresh_error_taxonomy_witness :
    (refreshView initDB .missing 0).1 =
      { status := 400, body := .detail "Refresh token is required" } ∧
    (refreshView initDB (.tok tokSample) 1900).1 =
      { status := 401, body := .detail "Invalid or expired refresh token" } ∧
    (refreshView initDB (.tok tokSample) 1000).1 =
      { status := 404, body := .detail "User not found" } ∧
    (refreshView dbAlice (.tok tokSample) 1000).1 =
      { status := 200,
        body := .accessOut (create_token
          { user_id := alice.id, email := alice.email }
          ACCESS_TOKEN_EXPIRATION 1000 1000) } :=
  ⟨(refresh_error_taxonomy initDB .missing 0).1 (Or.inl rfl),
   (refresh_error_taxonomy initDB (.tok tokSample) 1900).2.1 tokSample rfl
     (by decide),
   (refresh_error_taxonomy initDB (.tok tokSample) 1000).2.2.1 tokSample
     { claims := { user_id := 1, email := "a@x.com" }, exp := 1900,
       iat := 1000 } rfl (by decide) (by decide),
   (refresh_error_taxonomy dbAlice (.tok tokSample) 1000).2.2.2 tokSample
     { claims := { user_id := 1, email := "a@x.com" }, exp := 1900,
       iat := 1000 } alice rfl (by decide) (by decide)⟩

/-- C9: the access token minted by a successful Refresh has issued_at equal
to the request clock and expiry exactly ACCESS_TOKEN_EXPIRATION (the
module-level constant, 900 seconds = 15 minutes) later.  The configured
access_ttl (quantified here as an arbitrary cfg) does not occur in the
refresh path at all — refreshView takes no configuration argument — so the
conclusion holds for every configured value, while Login reads its
lifetime from the config (see the hot-reload theorem). -/
theorem refresh_access_ttl_constant (cfg : Config) (db : DB) (t : Token)
    (now : Nat) (decoded : Payload) (user : UserRec)
    (hdec : decode_token t now = some decoded)
    (hfind : findUserById db.users decoded.claims.user_id = some user) :
    ∃ access : Token,
      (refreshView db (.tok t) now).1.body = .accessOut access ∧
      access.payload.iat = now ∧
      access.payload.exp = now + ACCESS_TOKEN_EXPIRATION ∧
      access.payload.exp - access.payload.iat = 900 ∧
      ACCESS_TOKEN_EXPIRATION = 900 ∧
      cfg.ACCESS_TOKEN_LIFETIME = cfg.ACCESS_TOKEN_LIFETIME := by
  refine ⟨create_token { user_id := user.id, email := user.email }
    ACCESS_TOKEN_EXPIRATION now now, ?_, rfl, rfl, ?_, rfl, rfl⟩
  · simp [refreshView, hdec, hfind]
  · simp [create_token, jwtEncode, ACCESS_TOKEN_EXPIRATION]

/-- Witness for C9 at a concrete input, under a configured access_ttl of
5 seconds: the refresh-minted token still lives 900 seconds. -/
theorem refresh_access_ttl_constant_witness :
    ∃ access : Token,
      (refreshView dbAlice (.tok tokSample) 1000).1.body =
        .accessOut access ∧
      access.payload.iat = 1000 ∧
      access.payload.exp = 1000 + ACCESS_TOKEN_EXPIRATION ∧
      access.payload.exp - access.payload.iat = 900 ∧
      ACCESS_TOKEN_EXPIRATION = 900 ∧
      Config.ACCESS_TOKEN_LIFETIME ⟨5, 7⟩ = Config.ACCESS_TOKEN_LIFETIME ⟨5, 7⟩ :=
  refresh_access_ttl_constant ⟨5, 7⟩ dbAlice tokSample 1000
    { claims := { user_id := 1, email := "a@x.com" }, exp := 1900,
      iat := 1000 } alice (by decide) (by decide)

/-- C2: the refresh endpoint never reads the RefreshTokenStore: its
response is identical over any two store contents (and any id counter),
and whenever the presented token decodes (signature valid, not expired)
and its user_id claim matches an existing user, it answers 200 with a
fresh access token — in particular a refresh token whose row was deleted
by Logout or replaced by a later Login still succeeds. -/
theorem refresh_ignores_store (users : List UserRec)
    (rows rows₂ : List RefreshRow) (n m : Nat) (f : RefreshField)
    (now : Nat) :
    (refreshView ⟨users, rows, n⟩ f now).1 =
      (refreshView ⟨users, rows₂, m⟩ f now).1 ∧
    (∀ t decoded user, f = .tok t → decode_token t now = some decoded →
      findUserById users decoded.claims.user_id = some user →
      (refreshView ⟨users, rows, n⟩ f now).1 =
        { status := 200,
          body := .accessOut (create_token
            { user_id := user.id, email := user.email }
            ACCESS_TOKEN_EXPIRATION now now) }) := by
  constructor
  · cases f with
    | missing => rfl
    | empty => rfl
    | tok t =>
      rcases hdec : decode_token t now with _ | decoded
      · simp [refreshView, hdec]
      · rcases hfind : findUserById users decoded.claims.user_id with _ | user
        · simp [refreshView, hdec, hfind]
        · simp [refreshView, hdec, hfind]
  · rintro t decoded user rfl hdec hfind
    simp [refreshView, hdec, hfind]

/-- Witness for C2 at a concrete input: the response with the sample row
stored equals the response with the store empty (the row deleted by a
logout), and the latter still succeeds with a fresh access token. -/
theorem refresh_ignores_store_witness :
    (refreshView ⟨[alice], [rowSample], 2⟩ (.tok tokSample) 1000).1 =
      (refreshView ⟨[alice], [], 2⟩ (.tok tokSample) 1000).1 ∧
    (refreshView ⟨[alice], [], 2⟩ (.tok tokSample) 1000).1 =
      { status := 200,
        body := .accessOut (create_token
          { user_id := alice.id, email := alice.email }
          ACCESS_TOKEN_EXPIRATION 1000 1000) } :=
  ⟨(refresh_ignores_store [alice] [rowSample] [] 2 2 (.tok tokSample)
      1000).1,
   (refresh_ignores_store [alice] [] [rowSample] 2 2 (.tok tokSample)
      1000).2 tokSample
     { claims := { user_id := 1, email := "a@x.com" }, exp := 1900,
       iat := 1000 } alice rfl (by decide) (by decide)⟩

/-- C4: for every signature-valid token, verification fails with the
expired-token error exactly when the current time has reached expires_at,
with an inclusive boundary (the comparison is now >= expires_at over
integer seconds since the epoch, so at the instant now = expires_at the
token is already expired); below the boundary it returns the payload. -/
theorem verify_expiry_inclusive_boundary (t : Token) (now : Nat)
    (hkey : t.key = SECRET_KEY) :
    (jwtDecode t SECRET_KEY now = .error .ExpiredSignature ↔
      t.payload.exp ≤ now) ∧
    (¬ t.payload.exp ≤ now → jwtDecode t SECRET_KEY now = .ok t.payload) := by
  refine ⟨⟨fun h => ?_, fun h => by simp [jwtDecode, hkey, h]⟩,
    fun h => by simp [jwtDecode, hkey, h]⟩
  by_contra hn
  simp [jwtDecode, hkey, hn] at h

/-- Witness for C4 at the exact boundary instant: a signature-valid token
with expires_at = 1900 checked at now = 1900 is already expired. -/
theorem verify_expiry_inclusive_boundary_witness :
    jwtDecode
      ⟨⟨⟨1, "a@x.com"⟩, 1900, 1000⟩, SECRET_KEY⟩ SECRET_KEY 1900 =
      .error .ExpiredSignature :=
  ((verify_expiry_inclusive_boundary
    ⟨⟨⟨1, "a@x.com"⟩, 1900, 1000⟩, SECRET_KEY⟩ 1900 rfl).1).mpr (by decide)

/-- C3 counterexample: the claim quantifies over every lifetime ttl, but
with ttl = 0 the minted token has expires_at equal to its issue instant,
and the expiry comparison is inclusive (now >= expires_at), so Issue
immediately followed by Verify fails instead of succeeding: decode_token
returns none, the underlying decode reporting the expired-token error. -/
theorem issue_zero_ttl_expired_at_once :
    decode_token
      (create_token { user_id := 1, email := "a@x.com" } 0 100 100) 100 =
      none ∧
    jwtDecode
      (create_token { user_id := 1, email := "a@x.com" } 0 100 100)
      SECRET_KEY 100 = .error .ExpiredSignature :=
  ⟨rfl, rfl⟩

/-- C3 (amended): Issue reads the clock twice, at t1 for expires_at and at
t2 >= t1 for issued_at; provided ttl strictly exceeds the drift t2 - t1
between the two reads (in particular any ttl >= 1 second when the clock
did not tick), Verify run immediately (at t2) succeeds and returns exactly
the input claims extended with issued_at = t2 and expires_at = t1 + ttl,
so issued_at <= now <= expires_at; and when the drift is at most 1 second,
expires_at - issued_at equals ttl within a 1 second tolerance.  For
ttl = 0 the token is already expired at issuance (see the counterexample
theorem). -/
theorem issue_then_verify_roundtrip (c : Claims) (ttl : Nat)
    (t1 t2 : Nat) (hle : t1 ≤ t2) (httl : t2 - t1 < ttl) :
    decode_token (create_token c ttl t1 t2) t2 =
      some { claims := c, exp := t1 + ttl, iat := t2 } ∧
    (create_token c ttl t1 t2).payload.iat ≤ t2 ∧
    t2 ≤ (create_token c ttl t1 t2).payload.exp ∧
    ((create_token c ttl t1 t2).payload.exp -
        (create_token c ttl t1 t2).payload.iat) ≤ ttl ∧
    (t2 ≤ t1 + 1 →
      ttl ≤ ((create_token c ttl t1 t2).payload.exp -
        (create_token c ttl t1 t2).payload.iat) + 1) := by
  have hs : ¬ (t1 + ttl ≤ t2) := by omega
  have hexp : (create_token c ttl t1 t2).payload.exp = t1 + ttl := rfl
  have hiat : (create_token c ttl t1 t2).payload.iat = t2 := rfl
  refine ⟨?_, ?_, ?_, ?_, ?_⟩
  · simp [decode_token, jwtDecode, create_token, jwtEncode, hs]
  · rw [hiat]
  · rw [hexp]
    omega
  · rw [hexp, hiat]
    omega
  · rw [hexp, hiat]
    intro hd
    omega

/-- Witness for C3 (amended) at a concrete input: both clock reads at
second 1000 and a 900 second lifetime; the immediate verify succeeds and
returns the claims with issued_at 1000 and expires_at 1900. -/
theorem issue_then_verify_roundtrip_witness :
    decode_token
      (create_token { user_id := 1, email := "a@x.com" } 900 1000 1000)
      1000 =
      some { claims := { user_id := 1, email := "a@x.com" }, exp := 1900,
             iat := 1000 } :=
  (issue_then_verify_roundtrip { user_id := 1, email := "a@x.com" } 900
    1000 1000 (by decide) (by decide)).1

/-- C7: the login view reads both token lifetimes from the dynamic config
at request time (it takes the config as a per-request argument), so a
changed access_ttl takes effect on the very next Login with no restart:
after a login at tOld under cfgOld, the next login under cfgNew mints an
access token with lifetime exactly cfgNew.ACCESS_TOKEN_LIFETIME, while the
token issued before the change is an immutable value whose expires_at is
still tOld + cfgOld.ACCESS_TOKEN_LIFETIME. -/
theorem login_access_ttl_hot_reload (cfgOld cfgNew : Config) (db : DB)
    (email password : String) (tOld tNew : Nat) (u : UserRec)
    (hf : findUserByEmail db.users email = some u)
    (hp : check_password u password = true) :
    ∃ access1 refresh1 access2 refresh2 : Token,
      (loginView cfgOld db email password tOld).1 =
        { status := 200, body := .tokensOut access1 refresh1 } ∧
      (loginView cfgNew (loginView cfgOld db email password tOld).2 email
          password tNew).1 =
        { status := 200, body := .tokensOut access2 refresh2 } ∧
      access2.payload.exp - access2.payload.iat =
        cfgNew.ACCESS_TOKEN_LIFETIME ∧
      access2.payload.exp = tNew + cfgNew.ACCESS_TOKEN_LIFETIME ∧
      access1.payload.exp = tOld + cfgOld.ACCESS_TOKEN_LIFETIME := by
  have hf2 : findUserByEmail
      (loginView cfgOld db email password tOld).2.users email = some u := by
    rw [loginView_users]
    exact hf
  refine ⟨create_token { user_id := u.id, email := u.email }
      cfgOld.ACCESS_TOKEN_LIFETIME tOld tOld,
    create_token { user_id := u.id, email := u.email }
      (86400 * cfgOld.REFRESH_TOKEN_LIFETIME) tOld tOld,
    create_token { user_id := u.id, email := u.email }
      cfgNew.ACCESS_TOKEN_LIFETIME tNew tNew,
    create_token { user_id := u.id, email := u.email }
      (86400 * cfgNew.REFRESH_TOKEN_LIFETIME) tNew tNew,
    ?_, ?_, ?_, rfl, rfl⟩
  · rw [loginView_success cfgOld db email password tOld u hf hp]
  · rw [loginView_success cfgNew _ email password tNew u hf2 hp]
  · have hexp : (create_token { user_id := u.id, email := u.email }
        cfgNew.ACCESS_TOKEN_LIFETIME tNew tNew).payload.exp =
        tNew + cfgNew.ACCESS_TOKEN_LIFETIME := rfl
    have hiat : (create_token { user_id := u.id, email := u.email }
        cfgNew.ACCESS_TOKEN_LIFETIME tNew tNew).payload.iat = tNew := rfl
    rw [hexp, hiat]
    omega

/-- Witness for C7 at concrete inputs: access_ttl changed from 900 to 60
between two logins of the sample user. -/
theorem login_access_ttl_hot_reload_witness :
    ∃ access1 refresh1 access2 refresh2 : Token,
      (loginView ⟨900, 7⟩ dbAlice "a@x.com" "pw1" 1000).1 =
        { status := 200, body := .tokensOut access1 refresh1 } ∧
      (loginView ⟨60, 7⟩ (loginView ⟨900, 7⟩ dbAlice "a@x.com" "pw1"
          1000).2 "a@x.com" "pw1" 2000).1 =
        { status := 200, body := .tokensOut access2 refresh2 } ∧
      access2.payload.exp - access2.payload.iat =
        Config.ACCESS_TOKEN_LIFETIME ⟨60, 7⟩ ∧
      access2.payload.exp = 2000 + Config.ACCESS_TOKEN_LIFETIME ⟨60, 7⟩ ∧
      access1.payload.exp = 1000 + Config.ACCESS_TOKEN_LIFETIME ⟨900, 7⟩ :=
  login_access_ttl_hot_reload ⟨900, 7⟩ ⟨60, 7⟩ dbAlice "a@x.com" "pw1"
    1000 2000 alice (by decide) (by decide)

/-- C10: the per-request authentication hook returns None (defers) whenever
the Authorization header is absent or does not start with "Bearer ", and it
raises AuthenticationFailed only after a bearer token was presented, with
three pairwise distinct messages for the expired-token, invalid-token and
user-not-found cases; in the one remaining case it authenticates the
request with the presented token. -/
theorem authenticate_defer_and_failures (parse : ParseToken) (db : DB)
    (now : Nat) :
    authenticate parse db none now = .deferred ∧
    (∀ h : PyStr, ("Bearer ".toList.isPrefixOf h) = false →
      authenticate parse db (some h) now = .deferred) ∧
    (∀ h : PyStr, ("Bearer ".toList.isPrefixOf h) = true →
      (jwtDecodeStr parse ((splitOnChar ' ' h).getD 1 []) SECRET_KEY now =
          .error .ExpiredSignature →
        authenticate parse db (some h) now =
          .failed "Access token has expired") ∧
      (jwtDecodeStr parse ((splitOnChar ' ' h).getD 1 []) SECRET_KEY now =
          .error .InvalidToken →
        authenticate parse db (some h) now = .failed "Invalid token") ∧
      (∀ payload,
        jwtDecodeStr parse ((splitOnChar ' ' h).getD 1 []) SECRET_KEY now =
          .ok payload →
        findUserById db.users payload.claims.user_id = none →
        authenticate parse db (some h) now = .failed "User not found") ∧
      (∀ payload user,
        jwtDecodeStr parse ((splitOnChar ' ' h).getD 1 []) SECRET_KEY now =
          .ok payload →
        findUserById db.users payload.claims.user_id = some user →
        authenticate parse db (some h) now =
          .ok user ((splitOnChar ' ' h).getD 1 []))) ∧
    ("Access token has expired" ≠ "Invalid token" ∧
      "Access token has expired" ≠ "User not found" ∧
      "Invalid token" ≠ "User not found") := by
  refine ⟨rfl, ?_, ?_, by decide, by decide, by decide⟩
  · intro h hpre
    have hcond : (h.isEmpty || !("Bearer ".toList.isPrefixOf h)) = true := by
      rw [hpre]
      simp
    simp only [authenticate]
    rw [hcond]
    rfl
  · intro h hpre
    have hcond : (h.isEmpty || !("Bearer ".toList.isPrefixOf h)) = false := by
      cases h with
      | nil => exact absurd hpre (by decide)
      | cons a as =>
        rw [hpre]
        rfl
    refine ⟨?_, ?_, ?_, ?_⟩
    · intro hk
      simp only [authenticate]
      rw [hcond, if_neg Bool.false_ne_true, hk]
    · intro hk
      simp only [authenticate]
      rw [hcond, if_neg Bool.false_ne_true, hk]
    · intro payload hk hfind
      simp only [authenticate]
      rw [hcond, if_neg Bool.false_ne_true, hk]
      simp [hfind]
    · intro payload user hk hfind
      simp only [authenticate]
      rw [hcond, if_neg Bool.false_ne_true, hk]
      simp [hfind]

/-- Sample wire-level parse function for the C10 witness: the string abc
carries the sample token, everything else is malformed. -/
def parseSample : ParseToken := fun s =>
  if s = "abc".toList then some tokSample else none

/-- Witness for C10 at concrete inputs: one instance of deferral on a
missing header, deferral on a non-bearer header, and each of the three
failure messages, plus the success case. -/
theorem authenticate_defer_and_failures_witness :
    authenticate parseSample dbAlice none 1000 = .deferred ∧
    authenticate parseSample dbAlice (some "Token abc".toList) 1000 =
      .deferred ∧
    authenticate parseSample dbAlice (some "Bearer abc".toList) 1900 =
      .failed "Access token has expired" ∧
    authenticate parseSample dbAlice (some "Bearer zzz".toList) 1000 =
      .failed "Invalid token" ∧
    authenticate parseSample initDB (some "Bearer abc".toList) 1000 =
      .failed "User not found" ∧
    authenticate parseSample dbAlice (some "Bearer abc".toList) 1000 =
      .ok alice "abc".toList :=
  ⟨(authenticate_defer_and_failures parseSample dbAlice 1000).1,
   (authenticate_defer_and_failures parseSample dbAlice 1000).2.1
     "Token abc".toList (by decide),
   ((authenticate_defer_and_failures parseSample dbAlice 1900).2.2.1
     "Bearer abc".toList (by decide)).1 (by rfl),
   ((authenticate_defer_and_failures parseSample dbAlice 1000).2.2.1
     "Bearer zzz".toList (by decide)).2.1 (by rfl),
   ((authenticate_defer_and_failures parseSample initDB 1000).2.2.1
     "Bearer abc".toList (by decide)).2.2.1
     { claims := { user_id := 1, email := "a@x.com" }, exp := 1900,
       iat := 1000 } (by rfl) (by decide),
   ((authenticate_defer_and_failures parseSample dbAlice 1000).2.2.1
     "Bearer abc".toList (by decide)).2.2.2
     { claims := { user_id := 1, email := "a@x.com" }, exp := 1900,
       iat := 1000 } alice (by rfl) (by decide)⟩

/-- Rows after update_or_create when a row for the user already exists:
every row of that user is updated in place. -/
theorem save_refresh_token_rows_pos (db : DB) (user : UserRec) (tok : Token)
    (cfg : Config) (now : Nat)
    (hx : db.rows.any (fun r => r.userId == user.id) = true) :
    (save_refresh_token db user tok cfg now).rows =
      db.rows.map (upsertRow user.id tok
        (now + 86400 * cfg.REFRESH_TOKEN_LIFETIME)) := by
  simp only [save_refresh_token, hx]
  rfl

/-- Rows after update_or_create when no row for the user exists: a fresh
row is appended. -/
theorem save_refresh_token_rows_neg (db : DB) (user : UserRec) (tok : Token)
    (cfg : Config) (now : Nat)
    (hx : db.rows.any (fun r => r.userId == user.id) = false) :
    (save_refresh_token db user tok cfg now).rows =
      db.rows ++
        [{ userId := user.id, token := tok, created_at := now,
           expires_at := now + 86400 * cfg.REFRESH_TOKEN_LIFETIME }] := by
  simp only [save_refresh_token, hx]
  rfl

/-- Pairwise-distinct user ids bound the row count of any user by one. -/
theorem pairwise_countP_le_one (l : List RefreshRow)
    (h : l.Pairwise fun a b => a.userId ≠ b.userId) (uid : Nat) :
    l.countP (fun r => r.userId == uid) ≤ 1 := by
  induction l with
  | nil => simp
  | cons a l ih =>
    rcases List.pairwise_cons.mp h with ⟨ha, hl⟩
    by_cases hx : a.userId = uid
    · rw [List.countP_cons_of_pos _ _ (by simpa using hx)]
      have hz : l.countP (fun r => r.userId == uid) = 0 := by
        apply List.countP_eq_zero.mpr
        intro b hb
        have hne := ha b hb
        simp only [beq_iff_eq]
        omega
      omega
    · rw [List.countP_cons_of_neg _ _ (by simpa using hx)]
      exact ih hl

/-- update_or_create keeps user ids pairwise distinct. -/
theorem save_refresh_token_pairwise (db : DB) (user : UserRec) (tok : Token)
    (cfg : Config) (now : Nat)
    (h : db.rows.Pairwise fun a b => a.userId ≠ b.userId) :
    (save_refresh_token db user tok cfg now).rows.Pairwise
      (fun a b => a.userId ≠ b.userId) := by
  by_cases hx : db.rows.any (fun r => r.userId == user.id) = true
  · rw [save_refresh_token_rows_pos db user tok cfg now hx]
    rw [List.pairwise_map]
    refine h.imp ?_
    intro a b hab
    rw [upsertRow_userId, upsertRow_userId]
    exact hab
  · have hx2 : db.rows.any (fun r => r.userId == user.id) = false := by
      simpa using hx
    rw [save_refresh_token_rows_neg db user tok cfg now hx2]
    rw [List.pairwise_append]
    refine ⟨h, by simp, ?_⟩
    intro a ha b hb
    simp only [List.mem_singleton] at hb
    subst hb
    have hne := List.any_eq_false.mp hx2 a ha
    simpa using hne

/-- After update_or_create, the user owns exactly one row. -/
theorem save_refresh_token_countP (db : DB) (user : UserRec) (tok : Token)
    (cfg : Config) (now : Nat)
    (h : db.rows.Pairwise fun a b => a.userId ≠ b.userId) :
    ((save_refresh_token db user tok cfg now).rows.countP
      (fun r => r.userId == user.id)) = 1 := by
  by_cases hx : db.rows.any (fun r => r.userId == user.id) = true
  · rw [save_refresh_token_rows_pos db user tok cfg now hx]
    rw [List.countP_map]
    have hcong : db.rows.countP
        ((fun r => r.userId == user.id) ∘ upsertRow user.id tok
          (now + 86400 * cfg.REFRESH_TOKEN_LIFETIME)) =
        db.rows.countP (fun r => r.userId == user.id) := by
      apply List.countP_congr
      intro r hr
      simp [Function.comp, upsertRow_userId]
    rw [hcong]
    have h1 := pairwise_countP_le_one db.rows h user.id
    have h2 : 0 < db.rows.countP (fun r => r.userId == user.id) := by
      rcases List.any_eq_true.mp hx with ⟨r, hr, hpr⟩
      exact List.countP_pos_iff.mpr ⟨r, hr, hpr⟩
    omega
  · have hx2 : db.rows.any (fun r => r.userId == user.id) = false := by
      simpa using hx
    rw [save_refresh_token_rows_neg db user tok cfg now hx2]
    rw [List.countP_append]
    have hz : db.rows.countP (fun r => r.userId == user.id) = 0 := by
      apply List.countP_eq_zero.mpr
      intro r hr
      simpa using List.any_eq_false.mp hx2 r hr
    rw [hz]
    simp

/-- After update_or_create, every row of the upserted user carries the new
token and the new expires_at. -/
theorem save_refresh_token_mem (db : DB) (user : UserRec) (tok : Token)
    (cfg : Config) (now : Nat) :
    ∀ r ∈ (save_refresh_token db user tok cfg now).rows,
      r.userId = user.id →
      r.token = tok ∧
      r.expires_at = now + 86400 * cfg.REFRESH_TOKEN_LIFETIME := by
  intro r hr hru
  by_cases hx : db.rows.any (fun r => r.userId == user.id) = true
  · rw [save_refresh_token_rows_pos db user tok cfg now hx] at hr
    rcases List.mem_map.mp hr with ⟨r0, hr0, heq⟩
    by_cases h0 : r0.userId = user.id
    · subst heq
      simp [upsertRow, h0]
    · subst heq
      rw [upsertRow_userId] at hru
      exact absurd hru h0
  · have hx2 : db.rows.any (fun r => r.userId == user.id) = false := by
      simpa using hx
    rw [save_refresh_token_rows_neg db user tok cfg now hx2] at hr
    rcases List.mem_append.mp hr with hmem | hmem
    · have hne := List.any_eq_false.mp hx2 r hmem
      simp only [beq_iff_eq] at hne
      exact absurd hru hne
    · simp only [List.mem_singleton] at hmem
      subst hmem
      exact ⟨rfl, rfl⟩

/-- Each sequential operation preserves the one-row-per-user invariant. -/
theorem step_preserves_invariant (db : DB) (op : Op)
    (h : atMostOneRowPerUser db) : atMostOneRowPerUser (step db op) := by
  unfold atMostOneRowPerUser at *
  cases op with
  | register email password =>
    by_cases hx : db.users.any (fun u => u.email == email) = true
    · simpa [step, registerView, hx] using h
    · have hx2 : db.users.any (fun u => u.email == email) = false := by
        simpa using hx
      simpa [step, registerView, hx2] using h
  | login cfg email password now =>
    rcases hf : findUserByEmail db.users email with _ | u
    · simpa [step, loginView, hf] using h
    · rcases hp : check_password u password with _ | _
      · simpa [step, loginView, hf, hp] using h
      · have hs := save_refresh_token_pairwise db u
          (create_token { user_id := u.id, email := u.email }
            (86400 * cfg.REFRESH_TOKEN_LIFETIME) now now) cfg now h
        simpa [step, loginView, hf, hp] using hs
  | refresh f now =>
    cases f with
    | missing => exact h
    | empty => exact h
    | tok t =>
      rcases hdec : decode_token t now with _ | decoded
      · simpa [step, refreshView, hdec] using h
      · rcases hfind : findUserById db.users decoded.claims.user_id
          with _ | u
        · simpa [step, refreshView, hdec, hfind] using h
        · simpa [step, refreshView, hdec, hfind] using h
  | logout f =>
    cases f with
    | missing => exact h
    | empty => exact h
    | tok t =>
      by_cases hx : db.rows.any (fun r => r.token == t) = true
      · have hsub : (db.rows.filter (fun r => r.token != t)).Pairwise
            (fun a b => a.userId ≠ b.userId) :=
          h.sublist (List.filter_sublist db.rows)
        simpa [step, logoutView, hx] using hsub
      · have hx2 : db.rows.any (fun r => r.token == t) = false := by
          simpa using hx
        simpa [step, logoutView, hx2] using h

/-- The invariant is inductive along any operation sequence. -/
theorem foldl_step_invariant (ops : List Op) :
    ∀ db : DB, atMostOneRowPerUser db →
      atMostOneRowPerUser (ops.foldl step db) := by
  induction ops with
  | nil => exact fun db h => h
  | cons op ops ih =>
    intro db h
    exact ih (step db op) (step_preserves_invariant db op h)

/-- C1: from the empty initial state, every sequence of Register, Login,
Refresh and Logout operations leaves at most one RefreshTokenModel row per
user (pairwise distinct user ids); and two sequential successful Logins
for the same user leave exactly one row for that user, holding precisely
the refresh token and the expires_at minted by the second Login. -/
theorem refresh_store_single_row_per_user :
    (∀ ops : List Op, atMostOneRowPerUser (runOps ops)) ∧
    (∀ (db : DB) (cfg1 cfg2 : Config) (email password : String)
        (t1 t2 : Nat) (u : UserRec),
      atMostOneRowPerUser db →
      findUserByEmail db.users email = some u →
      check_password u password = true →
      (loginView cfg1 db email password t1).1.status = 200 ∧
      (loginView cfg2 (loginView cfg1 db email password t1).2 email
          password t2).1.status = 200 ∧
      ((loginView cfg2 (loginView cfg1 db email password t1).2 email
          password t2).2.rows.countP (fun r => r.userId == u.id)) = 1 ∧
      (∀ r ∈ (loginView cfg2 (loginView cfg1 db email password t1).2 email
          password t2).2.rows, r.userId = u.id →
        r.token = create_token { user_id := u.id, email := u.email }
          (86400 * cfg2.REFRESH_TOKEN_LIFETIME) t2 t2 ∧
        r.expires_at = t2 + 86400 * cfg2.REFRESH_TOKEN_LIFETIME)) := by
  constructor
  · intro ops
    exact foldl_step_invariant ops initDB List.Pairwise.nil
  · intro db cfg1 cfg2 email password t1 t2 u hinv hf hp
    have hs1 := loginView_success cfg1 db email password t1 u hf hp
    have hf2 : findUserByEmail
        (loginView cfg1 db email password t1).2.users email = some u := by
      rw [loginView_users]
      exact hf
    have hs2 := loginView_success cfg2 (loginView cfg1 db email password
      t1).2 email password t2 u hf2 hp
    have hinv1 : atMostOneRowPerUser
        (loginView cfg1 db email password t1).2 := by
      unfold atMostOneRowPerUser
      rw [hs1]
      exact save_refresh_token_pairwise db u _ cfg1 t1 hinv
    refine ⟨?_, ?_, ?_, ?_⟩
    · rw [hs1]
    · rw [hs2]
    · rw [hs2]
      exact save_refresh_token_countP _ u _ cfg2 t2 hinv1
    · rw [hs2]
      exact save_refresh_token_mem _ u _ cfg2 t2

/-- Witness for C1 at concrete inputs: two logins of the sample user under
two different configs both succeed, and afterwards the user has exactly
one stored refresh row. -/
theorem refresh_store_single_row_per_user_witness :
    (loginView ⟨900, 7⟩ dbAlice "a@x.com" "pw1" 1000).1.status = 200 ∧
    (loginView ⟨60, 3⟩ (loginView ⟨900, 7⟩ dbAlice "a@x.com" "pw1"
        1000).2 "a@x.com" "pw1" 2000).1.status = 200 ∧
    ((loginView ⟨60, 3⟩ (loginView ⟨900, 7⟩ dbAlice "a@x.com" "pw1"
        1000).2 "a@x.com" "pw1" 2000).2.rows.countP
      (fun r => r.userId == alice.id)) = 1 :=
  have h := refresh_store_single_row_per_user.2 dbAlice ⟨900, 7⟩ ⟨60, 3⟩
    "a@x.com" "pw1" 1000 2000 alice List.Pairwise.nil (by decide) (by decide)
  ⟨h.1, h.2.1, h.2.2.1⟩

end PyShop
